import Mathlib

/-!
Verification of the simulation core of the Algorithmic-Trading-Strategy
repository: the technical-indicator library (`strategies/indicators.py`),
the signal-generation strategies (`strategies/strategies.py`) and the
backtesting engine (`backtesting/engine.py`).

Modelling conventions:
* Python `Decimal` values and `float` price arithmetic are embedded as `Rat`.
  All quantities appearing in the claims are produced by exact decimal
  operations (`+`, `-`, `*`, quantize) or by short float computations whose
  relative float error (≤ 2⁻⁵²) is far below the 1e-6 tolerance the spec
  grants, so `Rat` is faithful for every stated property.
* `datetime` timestamps are abstracted to `Nat` indices; the code only ever
  orders them and copies them around.
* A Python `IndexError` / `AttributeError` is modelled by `Option`/an error
  component: `none`/`some err` marks the raise, and the state returned next
  to it is the state at the moment the exception escapes (Python mutations
  performed before the raise are kept, as they are on the real objects).
* Python dicts keyed by symbol are association lists.
-/

/-- Signal type enum (`core/models.py`, `SignalType`). -/
inductive SignalType where
  | BUY
  | SELL
  | HOLD
  | NO_SIGNAL
deriving DecidableEq, Repr

/-- Order side enum (`core/models.py`, `OrderSide`). -/
inductive OrderSide where
  | buy
  | sell
deriving DecidableEq, Repr

/-- One OHLCV bar (`core/models.py`, `OHLCV`). `open` is a Lean keyword, so
the open price field is named `openP`. -/
structure OHLCV where
  timestamp : Nat
  openP : Rat
  high : Rat
  low : Rat
  close : Rat
  volume : Int
deriving DecidableEq, Repr

/-- Trading signal (`core/models.py`, `Signal`). The free-form diagnostic
`metadata` dict is omitted: no claim concerns it, and none of the modelled
control flow reads it back. -/
structure Signal where
  symbol : String
  signal_type : SignalType
  timestamp : Nat
  price : Rat
  confidence : Rat
deriving DecidableEq, Repr

/-- Executed trade record (`core/models.py`, `Trade`). -/
structure Trade where
  symbol : String
  side : OrderSide
  quantity : Rat
  price : Rat
  timestamp : Nat
  commission : Rat
  pnl : Option Rat
deriving DecidableEq, Repr

/-- Decimal `quantize(Decimal('1'), rounding=ROUND_DOWN)`: truncation toward
zero to an integer. -/
def decimalQuantizeDown (x : Rat) : Int :=
  if x < 0 then -⌊-x⌋ else ⌊x⌋

/-- Successive price changes `prices[i] - prices[i-1]`
(`relative_strength_index`, loop at indicators.py:78-81). -/
def priceChanges : List Rat → List Rat
  | p₀ :: p₁ :: rest => (p₁ - p₀) :: priceChanges (p₁ :: rest)
  | _ => []

/-- Simple moving average (`TechnicalIndicators.simple_moving_average`,
indicators.py:37-45): empty if fewer than `period` inputs, else the mean of
each trailing window of length `period`. -/
def TechnicalIndicators.simple_moving_average (prices : List Rat) (period : Nat) : List Rat :=
  if prices.length < period then []
  else (List.range (prices.length - period + 1)).map
    (fun i => ((prices.drop i).take period).sum / (period : Rat))

/-- Tail of the EMA recurrence `v = price*m + prev*(1-m)`
(`exponential_moving_average`, indicators.py:61-63). -/
def emaFrom (multiplier prev : Rat) : List Rat → List Rat
  | [] => []
  | p :: rest =>
    let v := p * multiplier + prev * (1 - multiplier)
    v :: emaFrom multiplier v rest

/-- Exponential moving average (`TechnicalIndicators.exponential_moving_average`,
indicators.py:48-65): seeded with the SMA of the first window, then the
recurrence with multiplier `2/(period+1)`. -/
def TechnicalIndicators.exponential_moving_average (prices : List Rat) (period : Nat) : List Rat :=
  if prices.length < period then []
  else
    let multiplier : Rat := 2 / ((period : Rat) + 1)
    let sma := (prices.take period).sum / (period : Rat)
    sma :: emaFrom multiplier sma (prices.drop period)

/-- Tail of the Wilder-smoothing RSI loop (`relative_strength_index`,
indicators.py:94-107), consuming paired (gain, loss) entries. -/
def rsiFrom (period : Rat) (avgGain avgLoss : Rat) : List (Rat × Rat) → List Rat
  | [] => []
  | (g, l) :: rest =>
    let ag := (avgGain * (period - 1) + g) / period
    let al := (avgLoss * (period - 1) + l) / period
    let r := if al = 0 then 100 else 100 - 100 / (1 + ag / al)
    r :: rsiFrom period ag al rest

/-- Relative strength index (`TechnicalIndicators.relative_strength_index`,
indicators.py:68-109): empty if fewer than `period+1` prices; first value
from the plain averages of the first `period` gains/losses, then Wilder
smoothing; RSI is 100 whenever the average loss is 0. -/
def TechnicalIndicators.relative_strength_index (prices : List Rat) (period : Nat) : List Rat :=
  if prices.length < period + 1 then []
  else
    let changes := priceChanges prices
    let gains := changes.map (fun c => max c 0)
    let losses := changes.map (fun c => max (-c) 0)
    let avgGain := (gains.take period).sum / (period : Rat)
    let avgLoss := (losses.take period).sum / (period : Rat)
    let first := if avgLoss = 0 then 100 else 100 - 100 / (1 + avgGain / avgLoss)
    first :: rsiFrom (period : Rat) avgGain avgLoss ((gains.drop period).zip (losses.drop period))

/-- Result dict of `TechnicalIndicators.macd` (indicators.py:112-144). -/
structure MACDLines where
  macd : List Rat
  signal : List Rat
  histogram : List Rat
deriving DecidableEq, Repr

/-- MACD (`TechnicalIndicators.macd`, indicators.py:112-144): empty triple if
fewer than `slow_period` prices; MACD line = fast EMA − slow EMA aligned at
the slow EMA's start, signal line = EMA of the MACD line, histogram = MACD −
signal aligned at the signal line's start. Indexing `fast_ema[i+start_idx]`
is in bounds whenever `fast_period ≤ slow_period`, the only configurations
the repository uses; the `getD` default 0 is never taken there. -/
def TechnicalIndicators.macd (prices : List Rat)
    (fast_period slow_period signal_period : Nat) : MACDLines :=
  if prices.length < slow_period then ⟨[], [], []⟩
  else
    let fast_ema := TechnicalIndicators.exponential_moving_average prices fast_period
    let slow_ema := TechnicalIndicators.exponential_moving_average prices slow_period
    let start_idx := slow_period - fast_period
    let macd_line := (List.range slow_ema.length).map
      (fun i => fast_ema.getD (i + start_idx) 0 - slow_ema.getD i 0)
    let signal_line := TechnicalIndicators.exponential_moving_average macd_line signal_period
    let signal_start_idx := signal_period - 1
    let histogram := (List.range signal_line.length).map
      (fun i => macd_line.getD (i + signal_start_idx) 0 - signal_line.getD i 0)
    ⟨macd_line, signal_line, histogram⟩

/-- Result dict of `TechnicalIndicators.bollinger_bands`. -/
structure BollingerLines where
  upper : List Rat
  middle : List Rat
  lower : List Rat
deriving DecidableEq, Repr

/-- Bollinger bands (`TechnicalIndicators.bollinger_bands`,
indicators.py:147-175). The band width uses `np.std(window)`, a population
standard deviation: an irrational square root, not representable in the
exact-decimal fragment. It is abstracted as the function argument `std`;
every theorem below holds for an arbitrary `std`, in particular for the
real one. -/
def TechnicalIndicators.bollinger_bands (std : List Rat → Rat) (prices : List Rat)
    (period : Nat) (std_dev : Rat) : BollingerLines :=
  if prices.length < period then ⟨[], [], []⟩
  else
    let windows := (List.range (prices.length - period + 1)).map
      (fun i => (prices.drop i).take period)
    let middles := windows.map (fun w => w.sum / (period : Rat))
    let uppers := windows.map (fun w => w.sum / (period : Rat) + std_dev * std w)
    let lowers := windows.map (fun w => w.sum / (period : Rat) - std_dev * std w)
    ⟨uppers, middles, lowers⟩

/-- Result dict of `TechnicalIndicators.stochastic_oscillator`. -/
structure StochasticLines where
  k : List Rat
  d : List Rat
deriving DecidableEq, Repr

/-- Maximum of a rational list with default 0 for the empty list (Python
`max` over a window that the guards keep nonempty). -/
def listMax : List Rat → Rat
  | [] => 0
  | x :: xs => xs.foldl max x

/-- Minimum of a rational list with default 0 for the empty list. -/
def listMin : List Rat → Rat
  | [] => 0
  | x :: xs => xs.foldl min x

/-- Stochastic oscillator (`TechnicalIndicators.stochastic_oscillator`,
indicators.py:178-208): %K over each `k_period` window (50 when the window
range is 0), %D the SMA of %K with period `d_period`. -/
def TechnicalIndicators.stochastic_oscillator (high_prices low_prices close_prices : List Rat)
    (k_period d_period : Nat) : StochasticLines :=
  if close_prices.length < k_period then ⟨[], []⟩
  else
    let k_values := (List.range (close_prices.length - k_period + 1)).map (fun i =>
      let high_window := (high_prices.drop i).take k_period
      let low_window := (low_prices.drop i).take k_period
      let highest_high := listMax high_window
      let lowest_low := listMin low_window
      let current_close := close_prices.getD (i + k_period - 1) 0
      if highest_high - lowest_low = 0 then 50
      else 100 * ((current_close - lowest_low) / (highest_high - lowest_low)))
    ⟨k_values, TechnicalIndicators.simple_moving_average k_values d_period⟩

/-- State captured by `IndicatorCalculator.__init__` (indicators.py:252-258):
bars sorted ascending by timestamp (Python `sorted` is stable; so is
`List.mergeSort`) and the derived per-field arrays. -/
structure IndicatorCalculator where
  ohlcv_data : List OHLCV
  close_prices : List Rat
  high_prices : List Rat
  low_prices : List Rat
  volumes : List Int
  timestamps : List Nat
deriving DecidableEq, Repr

/-- Constructor `IndicatorCalculator(ohlcv_data)` (indicators.py:252-258). -/
def IndicatorCalculator.ofData (data : List OHLCV) : IndicatorCalculator :=
  let sorted := data.mergeSort (fun a b => a.timestamp ≤ b.timestamp)
  { ohlcv_data := sorted
    close_prices := sorted.map (·.close)
    high_prices := sorted.map (·.high)
    low_prices := sorted.map (·.low)
    volumes := sorted.map (·.volume)
    timestamps := sorted.map (·.timestamp) }

/-- Payload of `calculate_sma` (indicators.py:260-275): `value["sma"]` and the
`metadata` entries; the echoed `period` parameter is kept as a field. -/
structure SMAData where
  timestamp : Nat
  sma : Option Rat
  period : Nat
  values : List Rat
  valueTimestamps : List Nat
deriving DecidableEq, Repr

/-- Method `IndicatorCalculator.calculate_sma` (indicators.py:260-275). The
read `self.timestamps[-1]` raises `IndexError` on a calculator built from an
empty series; that raise is the `none` result. -/
def IndicatorCalculator.calculate_sma (c : IndicatorCalculator) (period : Nat) :
    Option SMAData :=
  let values := TechnicalIndicators.simple_moving_average c.close_prices period
  match c.timestamps.getLast? with
  | none => none
  | some ts => some
      { timestamp := ts
        sma := values.getLast?
        period := period
        values := values
        valueTimestamps := c.timestamps.drop (period - 1) }

/-- Payload of `calculate_rsi` (indicators.py:277-292). -/
structure RSIData where
  timestamp : Nat
  rsi : Option Rat
  period : Nat
  values : List Rat
  valueTimestamps : List Nat
deriving DecidableEq, Repr

/-- Method `IndicatorCalculator.calculate_rsi` (indicators.py:277-292). -/
def IndicatorCalculator.calculate_rsi (c : IndicatorCalculator) (period : Nat) :
    Option RSIData :=
  let values := TechnicalIndicators.relative_strength_index c.close_prices period
  match c.timestamps.getLast? with
  | none => none
  | some ts => some
      { timestamp := ts
        rsi := values.getLast?
        period := period
        values := values
        valueTimestamps := c.timestamps.drop period }

/-- Payload of `calculate_macd` (indicators.py:294-322). -/
structure MACDData where
  timestamp : Nat
  macd : Option Rat
  signal : Option Rat
  histogram : Option Rat
  macd_line : List Rat
  signal_line : List Rat
  histogram_line : List Rat
deriving DecidableEq, Repr

/-- Method `IndicatorCalculator.calculate_macd` (indicators.py:294-322). -/
def IndicatorCalculator.calculate_macd (c : IndicatorCalculator)
    (fast_period slow_period signal_period : Nat) : Option MACDData :=
  let lines := TechnicalIndicators.macd c.close_prices fast_period slow_period signal_period
  match c.timestamps.getLast? with
  | none => none
  | some ts => some
      { timestamp := ts
        macd := lines.macd.getLast?
        signal := lines.signal.getLast?
        histogram := lines.histogram.getLast?
        macd_line := lines.macd
        signal_line := lines.signal
        histogram_line := lines.histogram }

/-- Payload of `calculate_bollinger_bands` (indicators.py:324-348). -/
structure BollingerData where
  timestamp : Nat
  upper : Option Rat
  middle : Option Rat
  lower : Option Rat
  upper_band : List Rat
  middle_band : List Rat
  lower_band : List Rat
deriving DecidableEq, Repr

/-- Method `IndicatorCalculator.calculate_bollinger_bands`
(indicators.py:324-348), with `np.std` abstracted as `std` as in
`TechnicalIndicators.bollinger_bands`. -/
def IndicatorCalculator.calculate_bollinger_bands (std : List Rat → Rat)
    (c : IndicatorCalculator) (period : Nat) (std_dev : Rat) : Option BollingerData :=
  let lines := TechnicalIndicators.bollinger_bands std c.close_prices period std_dev
  match c.timestamps.getLast? with
  | none => none
  | some ts => some
      { timestamp := ts
        upper := lines.upper.getLast?
        middle := lines.middle.getLast?
        lower := lines.lower.getLast?
        upper_band := lines.upper
        middle_band := lines.middle
        lower_band := lines.lower }

/-- Payload of `calculate_stochastic` (indicators.py:350-374). -/
structure StochasticData where
  timestamp : Nat
  k : Option Rat
  d : Option Rat
  k_values : List Rat
  d_values : List Rat
deriving DecidableEq, Repr

/-- Method `IndicatorCalculator.calculate_stochastic` (indicators.py:350-374). -/
def IndicatorCalculator.calculate_stochastic (c : IndicatorCalculator)
    (k_period d_period : Nat) : Option StochasticData :=
  let lines := TechnicalIndicators.stochastic_oscillator
    c.high_prices c.low_prices c.close_prices k_period d_period
  match c.timestamps.getLast? with
  | none => none
  | some ts => some
      { timestamp := ts
        k := lines.k.getLast?
        d := lines.d.getLast?
        k_values := lines.k
        d_values := lines.d }

/-- Indicator families for which `IndicatorCalculator` defines a query method:
exactly the five `calculate_*` methods of indicators.py:260-374. -/
def IndicatorCalculator.exposedQueryFamilies : List String :=
  ["SMA", "RSI", "MACD", "BollingerBands", "Stochastic"]

/-- The eight indicator families implemented by `TechnicalIndicators`
(indicators.py:36-247), in the order the spec lists them. -/
def allIndicatorFamilies : List String :=
  ["SMA", "EMA", "RSI", "MACD", "BollingerBands", "Stochastic", "ATR", "OBV"]

/-- Python negative indexing `xs[-1-k]` with default 0; every use below is
guarded by the emptiness/length checks the Python code performs first, so
the default is never taken. -/
def negIndexD (xs : List Rat) (k : Nat) : Rat :=
  xs.reverse.getD k 0

/-- Method `SimpleMovingAverageStrategy.generate_signals`
(strategies.py:72-126). `calc` is `self.indicator_calculator`: the snapshot
built by `initialize` from the data-provider pull and NEVER rebuilt by
`run_backtest`, so the SMA series it answers with are independent of
`current_data` — only the last bar's close and timestamp come from the
prefix. `short_period`/`long_period` are the configuration parameters
(defaults 5 and 20). `none` is a raised `IndexError`. -/
def SimpleMovingAverageStrategy.generate_signals (symbol : String)
    (short_period long_period : Nat) (calculator : Option IndicatorCalculator)
    (current_data : List OHLCV) : Option (List Signal) :=
  match calculator with
  | none => some []
  | some c =>
    match current_data.getLast? with
    | none => none
    | some bar =>
      match c.calculate_sma short_period, c.calculate_sma long_period with
      | some short_sma_indicator, some long_sma_indicator =>
        let short_sma_values := short_sma_indicator.values
        let long_sma_values := long_sma_indicator.values
        if short_sma_values = [] ∨ long_sma_values = [] then some []
        else
          let short_sma := negIndexD short_sma_values 0
          let long_sma := negIndexD long_sma_values 0
          let signal_type :=
            if 2 ≤ short_sma_values.length ∧ 2 ≤ long_sma_values.length then
              let prev_short_sma := negIndexD short_sma_values 1
              let prev_long_sma := negIndexD long_sma_values 1
              if prev_short_sma ≤ prev_long_sma ∧ short_sma > long_sma then
                SignalType.BUY
              else if prev_short_sma ≥ prev_long_sma ∧ short_sma < long_sma then
                SignalType.SELL
              else SignalType.NO_SIGNAL
            else SignalType.NO_SIGNAL
          if signal_type ≠ SignalType.NO_SIGNAL then
            some [{ symbol := symbol
                    signal_type := signal_type
                    timestamp := bar.timestamp
                    price := bar.close
                    confidence := 7/10 }]
          else some []
      | _, _ => none

/-- Python truthiness of one entry of `all([sma_20, rsi, macd, signal_line,
bb_upper, bb_lower])` (strategies.py:297): `None` and the float `0.0` are
both falsy. -/
def truthy : Option Rat → Bool
  | none => false
  | some x => x != 0

/-- Voting core of `MultiIndicatorStrategy.generate_signals`
(strategies.py:297-345): the availability check via Python `all`, the four
weighted votes (RSI, MACD, Bollinger with weight 1; SMA-20 trend with weight
0.5), and the 0.6-fraction decision. Returns the emitted signal type and its
confidence, or `none` when no signal is produced. -/
def MultiIndicatorStrategy.vote (current_price : Rat)
    (sma_20 rsi macd signal_line bb_upper bb_lower : Option Rat) :
    Option (SignalType × Rat) :=
  if truthy sma_20 && truthy rsi && truthy macd && truthy signal_line
      && truthy bb_upper && truthy bb_lower then
    let sma20 := sma_20.getD 0
    let rsiV := rsi.getD 0
    let macdV := macd.getD 0
    let signalV := signal_line.getD 0
    let bbU := bb_upper.getD 0
    let bbL := bb_lower.getD 0
    let buy1 : Rat := if rsiV ≤ 30 then 1 else 0
    let sell1 : Rat := if rsiV ≤ 30 then 0 else if 70 ≤ rsiV then 1 else 0
    let buy2 : Rat := if signalV < macdV then 1 else 0
    let sell2 : Rat := if signalV < macdV then 0 else 1
    let buy3 : Rat := if current_price ≤ bbL then 1 else 0
    let sell3 : Rat := if current_price ≤ bbL then 0
      else if bbU ≤ current_price then 1 else 0
    let buy4 : Rat := if sma20 < current_price then 1/2 else 0
    let sell4 : Rat := if sma20 < current_price then 0 else 1/2
    let buy_signals := buy1 + buy2 + buy3 + buy4
    let sell_signals := sell1 + sell2 + sell3 + sell4
    let total_signals : Rat := 7/2
    let buy_ratio := buy_signals / total_signals
    let sell_ratio := sell_signals / total_signals
    if 3/5 ≤ buy_ratio then some (SignalType.BUY, buy_ratio)
    else if 3/5 ≤ sell_ratio then some (SignalType.SELL, sell_ratio)
    else none
  else none

/-- Method `MultiIndicatorStrategy.generate_signals` (strategies.py:276-368):
extracts the latest SMA(20), RSI(14), MACD(12,26,9) and Bollinger(20,2)
values from the initialize-time calculator and feeds them to the voting
core. `std` abstracts `np.std` as in `TechnicalIndicators.bollinger_bands`. -/
def MultiIndicatorStrategy.generate_signals (std : List Rat → Rat) (symbol : String)
    (calculator : Option IndicatorCalculator) (current_data : List OHLCV) :
    Option (List Signal) :=
  match calculator with
  | none => some []
  | some c =>
    match current_data.getLast? with
    | none => none
    | some bar =>
      match c.calculate_sma 20, c.calculate_rsi 14, c.calculate_macd 12 26 9,
          c.calculate_bollinger_bands std 20 2 with
      | some smaI, some rsiI, some macdI, some bbI =>
        match MultiIndicatorStrategy.vote bar.close smaI.sma rsiI.rsi
            macdI.macd macdI.signal bbI.upper bbI.lower with
        | some (ty, conf) =>
          some [{ symbol := symbol, signal_type := ty, timestamp := bar.timestamp
                  price := bar.close, confidence := conf }]
        | none => some []
      | _, _, _, _ => none

/-- Backtest configuration (`BacktestConfig`, engine.py:23-31); the date
range is not modelled (it only parameterises the data-provider pull and the
annualised-return metric, outside every claim). -/
structure BacktestConfig where
  initial_capital : Rat
  commission_per_trade : Rat
  slippage : Rat
  max_position_size : Rat
deriving DecidableEq, Repr

/-- The field defaults of `BacktestConfig`: commission 0.1%, slippage 0.05%,
max position size 10%. -/
def BacktestConfig.default_ (initial_capital : Rat) : BacktestConfig :=
  { initial_capital := initial_capital
    commission_per_trade := 1/1000
    slippage := 5/10000
    max_position_size := 1/10 }

/-- Position during backtesting (`BacktestPosition`, engine.py:33-42). The
Python dataclass declares NO `realized_pnl` field — only the unused
`core.models.Position` has one — which is why the sell path's
`position.realized_pnl += ...` (engine.py:188) raises `AttributeError`. -/
structure BacktestPosition where
  symbol : String
  quantity : Rat
  entry_price : Rat
  entry_date : Nat
  current_price : Rat
  market_value : Rat
  unrealized_pnl : Rat
deriving DecidableEq, Repr

/-- Per-position entry of one `portfolio_history` record
(`_record_portfolio_state`, engine.py:213-220). The Python dict stores
quantity, market_value and unrealized_pnl; `current_price` is a
specification-only ghost field, copied from the position at record time and
read by no modelled code, kept so that the conservation claim
`cash + Σ quantity × current price = total_value` can be stated over a
snapshot. -/
structure PositionSnapshot where
  quantity : Rat
  market_value : Rat
  unrealized_pnl : Rat
  current_price : Rat
deriving DecidableEq, Repr

/-- One `portfolio_history` record (`_record_portfolio_state`,
engine.py:207-222). -/
structure PortfolioSnapshot where
  timestamp : Nat
  total_value : Rat
  cash : Rat
  positions : List (String × PositionSnapshot)
deriving DecidableEq, Repr

/-- Mutable state of one `BacktestEngine` instance (engine.py:47-56):
`self.portfolio` (cash, total_value), `self.positions`, `self.trades`,
`self.portfolio_history`. -/
structure EngineState where
  cash : Rat
  total_value : Rat
  positions : List (String × BacktestPosition)
  trades : List Trade
  portfolio_history : List PortfolioSnapshot
deriving DecidableEq, Repr

/-- Dict lookup `self.positions[symbol]` / `symbol in self.positions`. -/
def assocFind {α : Type} (m : List (String × α)) (k : String) : Option α :=
  (m.find? (fun e => e.1 == k)).map (·.2)

/-- Dict update `self.positions[symbol] = v` (insert or overwrite). -/
def assocSet {α : Type} : List (String × α) → String → α → List (String × α)
  | [], k, v => [(k, v)]
  | (k', v') :: rest, k, v =>
    if k' = k then (k, v) :: rest else (k', v') :: assocSet rest k v

/-- Engine state as built by `BacktestEngine.__init__` (engine.py:47-56). -/
def initialState (config : BacktestConfig) : EngineState :=
  { cash := config.initial_capital
    total_value := config.initial_capital
    positions := []
    trades := []
    portfolio_history := [] }

/-- Body of the position loop of `_update_portfolio_values`
(engine.py:106-114): mark one position to the bar close. -/
def markPosition (close : Rat) (p : BacktestPosition) : BacktestPosition :=
  { p with current_price := close
           market_value := p.quantity * close
           unrealized_pnl := p.quantity * close - p.quantity * p.entry_price }

/-- Method `BacktestEngine._update_portfolio_values` (engine.py:102-116):
mark every position to the current close and set
`total_value = cash + Σ position values`. -/
def BacktestEngine.updatePortfolioValues (s : EngineState) (bar : OHLCV) : EngineState :=
  let positions := s.positions.map (fun e => (e.1, markPosition bar.close e.2))
  let total_value := s.cash
    + (positions.map (fun e => e.2.quantity * e.2.current_price)).sum
  { s with positions := positions, total_value := total_value }

/-- The one runtime error the execution path can raise. -/
inductive ExecError where
  | attributeErrorRealizedPnl
deriving DecidableEq, Repr

/-- Method `BacktestEngine._execute_signal` (engine.py:118-205). Returns the
state after the call together with `some e` when the call raised: on the
sell path with an open position, cash is credited with the proceeds
(engine.py:182-183) and then `position.realized_pnl += realized_pnl`
(engine.py:188) raises `AttributeError` — `BacktestPosition` declares no
such field — so the quantity update, the deletion check and the Trade record
(engine.py:190-205) are never reached. Decimal division is modelled as exact
rational division (its 28-significant-digit rounding never moves any value
appearing in a claim); a zero signal price, which would raise
`ZeroDivisionError` in Python, is excluded by hypothesis wherever the model
is applied. -/
def BacktestEngine.executeSignal (config : BacktestConfig) (s : EngineState)
    (signal : Signal) (timestamp : Nat) : EngineState × Option ExecError :=
  if signal.signal_type ≠ SignalType.BUY ∧ signal.signal_type ≠ SignalType.SELL then
    (s, none)
  else
    let position_value := s.total_value * config.max_position_size
    let quantity : Rat := (decimalQuantizeDown (position_value / signal.price) : Int)
    if quantity ≤ 0 then (s, none)
    else
      let execution_price :=
        if signal.signal_type = SignalType.SELL then signal.price * (1 - config.slippage)
        else signal.price * (1 + config.slippage)
      let commission := execution_price * quantity * config.commission_per_trade
      if signal.signal_type = SignalType.BUY then
        let cost := execution_price * quantity + commission
        if s.cash < cost then (s, none)
        else
          let positions' :=
            match assocFind s.positions signal.symbol with
            | some position =>
              let total_quantity := position.quantity + quantity
              let total_cost := position.quantity * position.entry_price
                + quantity * execution_price
              assocSet s.positions signal.symbol
                { position with entry_price := total_cost / total_quantity
                                quantity := total_quantity }
            | none =>
              assocSet s.positions signal.symbol
                { symbol := signal.symbol
                  quantity := quantity
                  entry_price := execution_price
                  entry_date := timestamp
                  current_price := execution_price
                  market_value := 0
                  unrealized_pnl := 0 }
          let trade : Trade :=
            { symbol := signal.symbol, side := OrderSide.buy, quantity := quantity
              price := execution_price, timestamp := timestamp
              commission := commission, pnl := none }
          ({ s with positions := positions'
                    cash := s.cash - cost
                    trades := s.trades ++ [trade] }, none)
      else
        match assocFind s.positions signal.symbol with
        | none => (s, none)
        | some position =>
          let sell_quantity := min quantity position.quantity
          let proceeds := execution_price * sell_quantity - commission
          ({ s with cash := s.cash + proceeds }, some ExecError.attributeErrorRealizedPnl)

/-- The `for signal in signals` loop of `run_backtest` (engine.py:90-91); a
raise aborts the loop and propagates. -/
def BacktestEngine.executeSignals (config : BacktestConfig) :
    EngineState → List Signal → Nat → EngineState × Option ExecError
  | s, [], _ => (s, none)
  | s, sig :: rest, ts =>
    match BacktestEngine.executeSignal config s sig ts with
    | (s', none) => BacktestEngine.executeSignals config s' rest ts
    | (s', some e) => (s', some e)

/-- Method `BacktestEngine._record_portfolio_state` (engine.py:207-222):
append a snapshot of cash, total_value and the per-position fields. -/
def BacktestEngine.recordPortfolioState (s : EngineState) (timestamp : Nat) : EngineState :=
  let snap : PortfolioSnapshot :=
    { timestamp := timestamp
      total_value := s.total_value
      cash := s.cash
      positions := s.positions.map (fun e => (e.1,
        { quantity := e.2.quantity
          market_value := e.2.market_value
          unrealized_pnl := e.2.unrealized_pnl
          current_price := e.2.current_price })) }
  { s with portfolio_history := s.portfolio_history ++ [snap] }

/-- One iteration of the `for i, ohlcv in enumerate(historical_data)` loop
(engine.py:80-94): mark-to-market, ask the strategy for signals on the bar
prefix, execute them, then record the portfolio state. `strategy` is the
`generate_signals` call as a function of the prefix `historical_data[:i+1]`. -/
def BacktestEngine.runStep (config : BacktestConfig)
    (strategy : List OHLCV → List Signal) (s : EngineState)
    (current_data : List OHLCV) (bar : OHLCV) : EngineState × Option ExecError :=
  let s₁ := BacktestEngine.updatePortfolioValues s bar
  let signals := strategy current_data
  match BacktestEngine.executeSignals config s₁ signals bar.timestamp with
  | (s₂, none) => (BacktestEngine.recordPortfolioState s₂ bar.timestamp, none)
  | (s₂, some e) => (s₂, some e)

/-- The whole bar loop of `run_backtest` (engine.py:80-94); `done` is the
list of bars already consumed, so the strategy at each step sees exactly
`historical_data[:i+1]`. -/
def BacktestEngine.runLoop (config : BacktestConfig)
    (strategy : List OHLCV → List Signal) :
    EngineState → List OHLCV → List OHLCV → EngineState × Option ExecError
  | s, _, [] => (s, none)
  | s, done, bar :: rest =>
    let current_data := done ++ [bar]
    match BacktestEngine.runStep config strategy s current_data bar with
    | (s', none) => BacktestEngine.runLoop config strategy s' current_data rest
    | (s', some e) => (s', some e)

/-- Errors that abort a whole run: the `ValueError("No historical data
available for backtest")` of engine.py:73-74 and a propagated execution
raise. -/
inductive RunError where
  | noHistoricalData
  | execError (e : ExecError)
deriving DecidableEq, Repr

/-- Result of `_calculate_results` (engine.py:224-293) restricted to the
exactly-computable fields the claims mention. `annualized_return` and
`sharpe_ratio` (engine.py:256-278) are float statistics with real
exponentiation/square roots, touched by no claim, and are not modelled. -/
structure BacktestResultSummary where
  initial_capital : Rat
  final_capital : Rat
  total_return : Rat
  max_drawdown : Rat
  trades : List Trade
  portfolio_values : List PortfolioSnapshot
deriving DecidableEq, Repr

/-- The running-peak drawdown loop of `_calculate_results`
(engine.py:263-272). -/
def maxDrawdownFrom (peak maxdd : Rat) : List Rat → Rat
  | [] => maxdd
  | v :: rest =>
    let peak' := max peak v
    maxDrawdownFrom peak' (max maxdd ((peak' - v) / peak')) rest

/-- Method `BacktestEngine._calculate_results` (engine.py:224-293), on the
modelled fields. -/
def BacktestEngine.calculateResults (config : BacktestConfig) (s : EngineState) :
    BacktestResultSummary :=
  if s.portfolio_history = [] then
    { initial_capital := config.initial_capital
      final_capital := config.initial_capital
      total_return := 0
      max_drawdown := 0
      trades := []
      portfolio_values := [] }
  else
    { initial_capital := config.initial_capital
      final_capital := s.total_value
      total_return := (s.total_value - config.initial_capital) / config.initial_capital
      max_drawdown := maxDrawdownFrom config.initial_capital 0
        (s.portfolio_history.map (·.total_value))
      trades := s.trades
      portfolio_values := s.portfolio_history }

/-- Method `BacktestEngine.run_backtest` (engine.py:58-100): raise
`ValueError` on an empty historical series before anything touches the
portfolio, otherwise run the bar loop and compute results; an execution
raise propagates, leaving the engine state as mutated so far and producing
no result. -/
def BacktestEngine.runBacktest (config : BacktestConfig)
    (strategy : List OHLCV → List Signal) (historical_data : List OHLCV) :
    EngineState × Except RunError BacktestResultSummary :=
  let s₀ := initialState config
  if historical_data = [] then (s₀, Except.error RunError.noHistoricalData)
  else
    match BacktestEngine.runLoop config strategy s₀ [] historical_data with
    | (s, none) => (s, Except.ok (BacktestEngine.calculateResults config s))
    | (s, some e) => (s, Except.error (RunError.execError e))

/-- Test bar with all four prices equal to `c`, as the concrete runs below
use. -/
def mkBar (ts : Nat) (c : Rat) : OHLCV :=
  { timestamp := ts, openP := c, high := c, low := c, close := c, volume := 0 }

/-- Sum of `quantity × current price` over the positions of one recorded
snapshot (the left side of the spec's conservation identity). -/
def snapshotPositionsValue (snap : PortfolioSnapshot) : Rat :=
  (snap.positions.map (fun e => e.2.quantity * e.2.current_price)).sum

/-- The spec's conservation identity at one recorded step, within relative
tolerance `tol`: `|cash + Σ quantity × current price − total_value| ≤
tol · |total_value|`. -/
def snapshotConserved (tol : Rat) (snap : PortfolioSnapshot) : Prop :=
  |snap.cash + snapshotPositionsValue snap - snap.total_value| ≤ tol * |snap.total_value|

/-- Initialize-time pull feeding the SMA-crossover strategy in run A below:
closes 3, 1, 4. -/
def lookaheadBarsA : List OHLCV := [mkBar 0 3, mkBar 1 1, mkBar 2 4]

/-- Initialize-time pull for run B: same first two closes as run A, but the
last bar closes at 1 instead of 4. -/
def lookaheadBarsB : List OHLCV := [mkBar 0 3, mkBar 1 1, mkBar 2 1]

/-- Engine-level strategy of run A: `generate_signals` with the calculator
`run_backtest` leaves frozen at its initialize-time value (built from
`lookaheadBarsA`); the `getD []` branch is never taken on the nonempty
prefixes the engine passes. Configuration: short period 1, long period 2. -/
def lookaheadStrategyA : List OHLCV → List Signal :=
  fun current_data =>
    (SimpleMovingAverageStrategy.generate_signals "AAPL" 1 2
      (some (IndicatorCalculator.ofData lookaheadBarsA)) current_data).getD []

/-- Engine-level strategy of run B: same configuration, calculator built
from `lookaheadBarsB`. -/
def lookaheadStrategyB : List OHLCV → List Signal :=
  fun current_data =>
    (SimpleMovingAverageStrategy.generate_signals "AAPL" 1 2
      (some (IndicatorCalculator.ofData lookaheadBarsB)) current_data).getD []

/-- Engine state with an open position of 10 shares of AAPL at entry price
100, cash 1000, marked at price 100 (total value 2000), used as the C3
failing input. -/
def sellCrashState : EngineState :=
  { cash := 1000
    total_value := 2000
    positions := [("AAPL",
      { symbol := "AAPL", quantity := 10, entry_price := 100, entry_date := 0
        current_price := 100, market_value := 1000, unrealized_pnl := 0 })]
    trades := []
    portfolio_history := [] }

/-- Strategy that buys on the first bar and sells on the second, driving the
engine into its sell path. -/
def buyThenSellStrategy : List OHLCV → List Signal :=
  fun current_data =>
    if current_data.length = 1 then
      [{ symbol := "AAPL", signal_type := SignalType.BUY, timestamp := 0
         price := 100, confidence := 1 }]
    else
      [{ symbol := "AAPL", signal_type := SignalType.SELL, timestamp := 0
         price := 100, confidence := 1 }]

/-- Strategy that emits a BUY at price 100 on every step, used for the C1
failing run. -/
def conservationBuyStrategy : List OHLCV → List Signal :=
  fun _ => [{ symbol := "AAPL", signal_type := SignalType.BUY, timestamp := 0
              price := 100, confidence := 1 }]

/-- Spec-side buy-vote fraction, following the claim's words for C6: RSI
oversold, MACD above signal and price at/below the lower Bollinger band each
add a full vote, price above the SMA-20 trend adds half a vote; the fraction
is taken of the total weight 3.5. -/
def specBuyFraction (price sma20 rsiV macdV signalV _bbU bbL : Rat) : Rat :=
  ((if rsiV ≤ 30 then (1:Rat) else 0)
    + (if signalV < macdV then 1 else 0)
    + (if price ≤ bbL then 1 else 0)
    + (if sma20 < price then 1/2 else 0)) / (7/2)

/-- Spec-side sell-vote fraction for C6: RSI overbought, MACD at/below
signal and price at/above the upper band each add a full vote, price
at/below the SMA-20 trend adds half a vote. -/
def specSellFraction (price sma20 rsiV macdV signalV bbU bbL : Rat) : Rat :=
  ((if rsiV ≤ 30 then (0:Rat) else if 70 ≤ rsiV then 1 else 0)
    + (if signalV < macdV then 0 else 1)
    + (if price ≤ bbL then 0 else if bbU ≤ price then 1 else 0)
    + (if sma20 < price then 0 else 1/2)) / (7/2)

/-- Engine state with a large cash balance and a tiny position (1 share at
price 1), the C9 failing input: the 10%-of-portfolio sizing yields a sized
quantity of 10000, and the commission — charged on the sized quantity, not
on the clamped one — exceeds the proceeds of the single share actually
sold. -/
def sellDebitState : EngineState :=
  { cash := 100000
    total_value := 100001
    positions := [("AAPL",
      { symbol := "AAPL", quantity := 1, entry_price := 1, entry_date := 0
        current_price := 1, market_value := 1, unrealized_pnl := 0 })]
    trades := []
    portfolio_history := [] }

/-- Scenario A of the spec, kept as a sanity check of the embedding:
SMA(3) over [10,11,12,13,14,15] is [11,12,13,14]. -/
theorem sma_scenario_a : TechnicalIndicators.simple_moving_average [10, 11, 12, 13, 14, 15] 3
    = [11, 12, 13, 14] := by
  norm_num [TechnicalIndicators.simple_moving_average, List.range_succ]

/-- Helper simp lemma: the BUY and SELL constructors differ. -/
theorem SignalType.buy_eq_sell_false : (SignalType.BUY = SignalType.SELL) = False :=
  eq_false (fun h => SignalType.noConfusion h)

/-- Helper simp lemma: the SELL and BUY constructors differ. -/
theorem SignalType.sell_eq_buy_false : (SignalType.SELL = SignalType.BUY) = False :=
  eq_false (fun h => SignalType.noConfusion h)

/-- C7: a BUY execution sized to quantity 10 at signal price 100 under the
default slippage 0.0005 and commission rate 0.001 (initial capital 10500, so
that the 10%-of-portfolio sizing gives `floor(1050/100) = 10`): the recorded
trade has execution price exactly 100.05 and commission exactly
100.05·10·0.001 = 1.0005, the cash debit is exactly
100.05·10 + 1.0005 = 1001.5005, and no error is raised. All arithmetic is
exact decimal arithmetic. -/
theorem buy_execution_scenario_c_exact :
    (BacktestEngine.executeSignal (BacktestConfig.default_ 10500)
        (initialState (BacktestConfig.default_ 10500))
        { symbol := "AAPL", signal_type := SignalType.BUY, timestamp := 0
          price := 100, confidence := 1 } 0).2 = none
    ∧ (BacktestEngine.executeSignal (BacktestConfig.default_ 10500)
        (initialState (BacktestConfig.default_ 10500))
        { symbol := "AAPL", signal_type := SignalType.BUY, timestamp := 0
          price := 100, confidence := 1 } 0).1.trades
      = [{ symbol := "AAPL", side := OrderSide.buy, quantity := 10, price := 100.05
           timestamp := 0, commission := 1.0005, pnl := none }]
    ∧ (initialState (BacktestConfig.default_ 10500)).cash
        - (BacktestEngine.executeSignal (BacktestConfig.default_ 10500)
            (initialState (BacktestConfig.default_ 10500))
            { symbol := "AAPL", signal_type := SignalType.BUY, timestamp := 0
              price := 100, confidence := 1 } 0).1.cash
      = 1001.5005 := by
  refine ⟨?_, ?_, ?_⟩ <;>
    norm_num [BacktestEngine.executeSignal, initialState, BacktestConfig.default_,
      decimalQuantizeDown, assocFind, assocSet, SignalType.buy_eq_sell_false,
      SignalType.sell_eq_buy_false]

/-- C8: running a backtest over an empty historical series fails for the
whole run: `run_backtest` raises `ValueError` before the strategy or the
portfolio is touched, so the caller gets the error, no `BacktestResult` (not
even a partial one) exists, and the engine state is exactly the initial
state. -/
theorem empty_history_hard_failure :
    ∀ (config : BacktestConfig) (strategy : List OHLCV → List Signal),
      BacktestEngine.runBacktest config strategy []
        = (initialState config, Except.error RunError.noHistoricalData) := by
  intro config strategy
  simp [BacktestEngine.runBacktest]

/-- C4 counterexample: on the price series of 15 flat values of 50 followed
by a drop to 40 (16 prices), RSI(14) does NOT return exactly one value less
than 50 — it returns the two values [100, 0]: the first window's deltas are
all zero, so `avg_loss == 0` and the first RSI is 100; the drop then yields
a second value 0. -/
theorem rsi_scenario_b_not_one_value :
    ¬ ∃ v : Rat, TechnicalIndicators.relative_strength_index
        (List.replicate 15 50 ++ [40]) 14 = [v] ∧ v < 50 := by
  rintro ⟨v, hv, -⟩
  rw [show TechnicalIndicators.relative_strength_index
      (List.replicate 15 50 ++ [40]) 14 = [100, 0] from by
    norm_num [TechnicalIndicators.relative_strength_index, priceChanges, rsiFrom]] at hv
  simp at hv

/-- C4 amended: RSI(14) over 15 flat values of 50 followed by a drop to 40
returns exactly two values, [100, 0]; the latest of them (0) is strictly
less than 50. -/
theorem rsi_fifteen_flat_then_drop_values :
    TechnicalIndicators.relative_strength_index (List.replicate 15 50 ++ [40]) 14
        = [100, 0]
    ∧ ((TechnicalIndicators.relative_strength_index
        (List.replicate 15 50 ++ [40]) 14).getLast?.getD 50 < 50) := by
  constructor
  · norm_num [TechnicalIndicators.relative_strength_index, priceChanges, rsiFrom]
  · rw [show TechnicalIndicators.relative_strength_index
        (List.replicate 15 50 ++ [40]) 14 = [100, 0] from by
      norm_num [TechnicalIndicators.relative_strength_index, priceChanges, rsiFrom]]
    norm_num

/-- Helper: a calculator built from a nonempty bar series has a nonempty
timestamp array (sorting permutes, so preserves length). -/
theorem ofData_timestamps_ne_nil (data : List OHLCV) (h : data ≠ []) :
    (IndicatorCalculator.ofData data).timestamps ≠ [] := by
  simp only [IndicatorCalculator.ofData]
  intro hc
  rw [List.map_eq_nil_iff] at hc
  have hlen := (List.mergeSort_perm data (fun a b => a.timestamp ≤ b.timestamp)).length_eq
  rw [hc] at hlen
  exact h (List.length_eq_zero.mp hlen.symm)

/-- C5 counterexample: the `IndicatorCalculator` does not expose a query for
each of the eight indicator families — EMA (and likewise ATR and OBV) has a
`TechnicalIndicators` implementation but no `calculate_*` method on the
calculator. -/
theorem ema_atr_obv_not_exposed :
    ¬ ∀ fam ∈ allIndicatorFamilies, fam ∈ IndicatorCalculator.exposedQueryFamilies := by
  decide

/-- C5 amended: the calculator (built from one symbol's bar series) exposes
named queries for exactly five of the eight indicator families — SMA, RSI,
MACD, Bollinger Bands, Stochastic, but not EMA, ATR or OBV — and, on any
nonempty series, each of the five returns the indicator's full historical
series together with its latest value (the last element of that series, or
`none` when the series is empty). -/
theorem calculator_exposes_five_query_families :
    ∀ (data : List OHLCV) (std : List Rat → Rat)
      (p rp fp slp sgp bp kp dp : Nat) (sd : Rat),
    data ≠ [] →
    (∀ fam ∈ IndicatorCalculator.exposedQueryFamilies, fam ∈ allIndicatorFamilies)
    ∧ "EMA" ∉ IndicatorCalculator.exposedQueryFamilies
    ∧ "ATR" ∉ IndicatorCalculator.exposedQueryFamilies
    ∧ "OBV" ∉ IndicatorCalculator.exposedQueryFamilies
    ∧ (∃ r, (IndicatorCalculator.ofData data).calculate_sma p = some r
        ∧ r.values = TechnicalIndicators.simple_moving_average
            (IndicatorCalculator.ofData data).close_prices p
        ∧ r.sma = r.values.getLast?)
    ∧ (∃ r, (IndicatorCalculator.ofData data).calculate_rsi rp = some r
        ∧ r.values = TechnicalIndicators.relative_strength_index
            (IndicatorCalculator.ofData data).close_prices rp
        ∧ r.rsi = r.values.getLast?)
    ∧ (∃ r, (IndicatorCalculator.ofData data).calculate_macd fp slp sgp = some r
        ∧ r.macd_line = (TechnicalIndicators.macd
            (IndicatorCalculator.ofData data).close_prices fp slp sgp).macd
        ∧ r.signal_line = (TechnicalIndicators.macd
            (IndicatorCalculator.ofData data).close_prices fp slp sgp).signal
        ∧ r.histogram_line = (TechnicalIndicators.macd
            (IndicatorCalculator.ofData data).close_prices fp slp sgp).histogram
        ∧ r.macd = r.macd_line.getLast?
        ∧ r.signal = r.signal_line.getLast?
        ∧ r.histogram = r.histogram_line.getLast?)
    ∧ (∃ r, (IndicatorCalculator.ofData data).calculate_bollinger_bands std bp sd = some r
        ∧ r.upper_band = (TechnicalIndicators.bollinger_bands std
            (IndicatorCalculator.ofData data).close_prices bp sd).upper
        ∧ r.middle_band = (TechnicalIndicators.bollinger_bands std
            (IndicatorCalculator.ofData data).close_prices bp sd).middle
        ∧ r.lower_band = (TechnicalIndicators.bollinger_bands std
            (IndicatorCalculator.ofData data).close_prices bp sd).lower
        ∧ r.upper = r.upper_band.getLast?
        ∧ r.middle = r.middle_band.getLast?
        ∧ r.lower = r.lower_band.getLast?)
    ∧ (∃ r, (IndicatorCalculator.ofData data).calculate_stochastic kp dp = some r
        ∧ r.k_values = (TechnicalIndicators.stochastic_oscillator
            (IndicatorCalculator.ofData data).high_prices
            (IndicatorCalculator.ofData data).low_prices
            (IndicatorCalculator.ofData data).close_prices kp dp).k
        ∧ r.d_values = (TechnicalIndicators.stochastic_oscillator
            (IndicatorCalculator.ofData data).high_prices
            (IndicatorCalculator.ofData data).low_prices
            (IndicatorCalculator.ofData data).close_prices kp dp).d
        ∧ r.k = r.k_values.getLast?
        ∧ r.d = r.d_values.getLast?) := by
  intro data std p rp fp slp sgp bp kp dp sd h
  obtain ⟨ts, hts⟩ := Option.isSome_iff_exists.mp
    (List.getLast?_isSome.mpr (ofData_timestamps_ne_nil data h))
  refine ⟨by decide, by decide, by decide, by decide, ?_, ?_, ?_, ?_, ?_⟩
  · simp only [IndicatorCalculator.calculate_sma, hts]
    exact ⟨_, rfl, rfl, rfl⟩
  · simp only [IndicatorCalculator.calculate_rsi, hts]
    exact ⟨_, rfl, rfl, rfl⟩
  · simp only [IndicatorCalculator.calculate_macd, hts]
    exact ⟨_, rfl, rfl, rfl, rfl, rfl, rfl, rfl⟩
  · simp only [IndicatorCalculator.calculate_bollinger_bands, hts]
    exact ⟨_, rfl, rfl, rfl, rfl, rfl, rfl, rfl⟩
  · simp only [IndicatorCalculator.calculate_stochastic, hts]
    exact ⟨_, rfl, rfl, rfl, rfl, rfl⟩

/-- Witness for `calculator_exposes_five_query_families`: instantiated on
the one-bar series `[mkBar 0 1]` with all periods 1, band width 2 and the
zero standard-deviation function. -/
theorem calculator_exposes_five_query_families_witness :
    (∀ fam ∈ IndicatorCalculator.exposedQueryFamilies, fam ∈ allIndicatorFamilies)
    ∧ "EMA" ∉ IndicatorCalculator.exposedQueryFamilies
    ∧ "ATR" ∉ IndicatorCalculator.exposedQueryFamilies
    ∧ "OBV" ∉ IndicatorCalculator.exposedQueryFamilies
    ∧ (∃ r, (IndicatorCalculator.ofData [mkBar 0 1]).calculate_sma 1 = some r
        ∧ r.values = TechnicalIndicators.simple_moving_average
            (IndicatorCalculator.ofData [mkBar 0 1]).close_prices 1
        ∧ r.sma = r.values.getLast?)
    ∧ (∃ r, (IndicatorCalculator.ofData [mkBar 0 1]).calculate_rsi 1 = some r
        ∧ r.values = TechnicalIndicators.relative_strength_index
            (IndicatorCalculator.ofData [mkBar 0 1]).close_prices 1
        ∧ r.rsi = r.values.getLast?)
    ∧ (∃ r, (IndicatorCalculator.ofData [mkBar 0 1]).calculate_macd 1 1 1 = some r
        ∧ r.macd_line = (TechnicalIndicators.macd
            (IndicatorCalculator.ofData [mkBar 0 1]).close_prices 1 1 1).macd
        ∧ r.signal_line = (TechnicalIndicators.macd
            (IndicatorCalculator.ofData [mkBar 0 1]).close_prices 1 1 1).signal
        ∧ r.histogram_line = (TechnicalIndicators.macd
            (IndicatorCalculator.ofData [mkBar 0 1]).close_prices 1 1 1).histogram
        ∧ r.macd = r.macd_line.getLast?
        ∧ r.signal = r.signal_line.getLast?
        ∧ r.histogram = r.histogram_line.getLast?)
    ∧ (∃ r, (IndicatorCalculator.ofData [mkBar 0 1]).calculate_bollinger_bands
          (fun _ => 0) 1 2 = some r
        ∧ r.upper_band = (TechnicalIndicators.bollinger_bands (fun _ => 0)
            (IndicatorCalculator.ofData [mkBar 0 1]).close_prices 1 2).upper
        ∧ r.middle_band = (TechnicalIndicators.bollinger_bands (fun _ => 0)
            (IndicatorCalculator.ofData [mkBar 0 1]).close_prices 1 2).middle
        ∧ r.lower_band = (TechnicalIndicators.bollinger_bands (fun _ => 0)
            (IndicatorCalculator.ofData [mkBar 0 1]).close_prices 1 2).lower
        ∧ r.upper = r.upper_band.getLast?
        ∧ r.middle = r.middle_band.getLast?
        ∧ r.lower = r.lower_band.getLast?)
    ∧ (∃ r, (IndicatorCalculator.ofData [mkBar 0 1]).calculate_stochastic 1 1 = some r
        ∧ r.k_values = (TechnicalIndicators.stochastic_oscillator
            (IndicatorCalculator.ofData [mkBar 0 1]).high_prices
            (IndicatorCalculator.ofData [mkBar 0 1]).low_prices
            (IndicatorCalculator.ofData [mkBar 0 1]).close_prices 1 1).k
        ∧ r.d_values = (TechnicalIndicators.stochastic_oscillator
            (IndicatorCalculator.ofData [mkBar 0 1]).high_prices
            (IndicatorCalculator.ofData [mkBar 0 1]).low_prices
            (IndicatorCalculator.ofData [mkBar 0 1]).close_prices 1 1).d
        ∧ r.k = r.k_values.getLast?
        ∧ r.d = r.d_values.getLast?) :=
  calculator_exposes_five_query_families [mkBar 0 1] (fun _ => 0)
    1 1 1 1 1 1 1 1 2 (by simp)

/-- Helper simp lemma: BUY differs from NO_SIGNAL. -/
theorem SignalType.buy_eq_no_signal_false :
    (SignalType.BUY = SignalType.NO_SIGNAL) = False :=
  eq_false (fun h => SignalType.noConfusion h)

/-- Helper simp lemma: SELL differs from NO_SIGNAL. -/
theorem SignalType.sell_eq_no_signal_false :
    (SignalType.SELL = SignalType.NO_SIGNAL) = False :=
  eq_false (fun h => SignalType.noConfusion h)

/-- Evaluated calculator for `lookaheadBarsA` (already sorted). -/
theorem ofData_lookaheadBarsA :
    IndicatorCalculator.ofData lookaheadBarsA =
      { ohlcv_data := lookaheadBarsA
        close_prices := [3, 1, 4]
        high_prices := [3, 1, 4]
        low_prices := [3, 1, 4]
        volumes := [0, 0, 0]
        timestamps := [0, 1, 2] } := by
  have hs : lookaheadBarsA.mergeSort
      (fun a b => decide (a.timestamp ≤ b.timestamp)) = lookaheadBarsA :=
    List.mergeSort_of_sorted (by decide)
  simp only [IndicatorCalculator.ofData, hs]
  simp [lookaheadBarsA, mkBar]

/-- Evaluated calculator for `lookaheadBarsB` (already sorted). -/
theorem ofData_lookaheadBarsB :
    IndicatorCalculator.ofData lookaheadBarsB =
      { ohlcv_data := lookaheadBarsB
        close_prices := [3, 1, 1]
        high_prices := [3, 1, 1]
        low_prices := [3, 1, 1]
        volumes := [0, 0, 0]
        timestamps := [0, 1, 2] } := by
  have hs : lookaheadBarsB.mergeSort
      (fun a b => decide (a.timestamp ≤ b.timestamp)) = lookaheadBarsB :=
    List.mergeSort_of_sorted (by decide)
  simp only [IndicatorCalculator.ofData, hs]
  simp [lookaheadBarsB, mkBar]

/-- C2 failing input: two runs of the SMA-crossover strategy (same
configuration: short period 1, long period 2) over the IDENTICAL one-bar
backtest series `[mkBar 100 2]` — so their bar prefixes agree at every step
— differ at step 0: run A (initialize pull `lookaheadBarsA`) emits a BUY and
its backtest records a trade, run B (initialize pull `lookaheadBarsB`,
agreeing with A on all but the last pulled bar) emits nothing and records no
trade. `run_backtest` never rebuilds `self.indicator_calculator` over the
step prefix, so step-`i` signals depend on the whole initialize-time pull —
including bars after step `i` — contradicting the no-look-ahead rule. -/
theorem step_signals_depend_on_initialize_data :
    SimpleMovingAverageStrategy.generate_signals "AAPL" 1 2
        (some (IndicatorCalculator.ofData lookaheadBarsA)) [mkBar 100 2]
      = some [{ symbol := "AAPL", signal_type := SignalType.BUY, timestamp := 100
                price := 2, confidence := 7/10 }]
    ∧ SimpleMovingAverageStrategy.generate_signals "AAPL" 1 2
        (some (IndicatorCalculator.ofData lookaheadBarsB)) [mkBar 100 2]
      = some []
    ∧ (BacktestEngine.runBacktest (BacktestConfig.default_ 100000)
        lookaheadStrategyA [mkBar 100 2]).1.trades.length = 1
    ∧ (BacktestEngine.runBacktest (BacktestConfig.default_ 100000)
        lookaheadStrategyB [mkBar 100 2]).1.trades.length = 0 := by
  have hA : SimpleMovingAverageStrategy.generate_signals "AAPL" 1 2
      (some (IndicatorCalculator.ofData lookaheadBarsA)) [mkBar 100 2]
      = some [{ symbol := "AAPL", signal_type := SignalType.BUY, timestamp := 100
                price := 2, confidence := 7/10 }] := by
    norm_num [SimpleMovingAverageStrategy.generate_signals, ofData_lookaheadBarsA,
      IndicatorCalculator.calculate_sma, TechnicalIndicators.simple_moving_average,
      negIndexD, mkBar, List.range_succ, SignalType.buy_eq_no_signal_false]
    simp
  have hB : SimpleMovingAverageStrategy.generate_signals "AAPL" 1 2
      (some (IndicatorCalculator.ofData lookaheadBarsB)) [mkBar 100 2]
      = some [] := by
    norm_num [SimpleMovingAverageStrategy.generate_signals, ofData_lookaheadBarsB,
      IndicatorCalculator.calculate_sma, TechnicalIndicators.simple_moving_average,
      negIndexD, mkBar, List.range_succ, SignalType.buy_eq_no_signal_false]
  have hA2 : SimpleMovingAverageStrategy.generate_signals "AAPL" 1 2
      (some (IndicatorCalculator.ofData lookaheadBarsA))
      [{ timestamp := 100, openP := 2, high := 2, low := 2, close := 2, volume := 0 }]
      = some [{ symbol := "AAPL", signal_type := SignalType.BUY, timestamp := 100
                price := 2, confidence := 7/10 }] := by
    simpa [mkBar] using hA
  have hB2 : SimpleMovingAverageStrategy.generate_signals "AAPL" 1 2
      (some (IndicatorCalculator.ofData lookaheadBarsB))
      [{ timestamp := 100, openP := 2, high := 2, low := 2, close := 2, volume := 0 }]
      = some [] := by
    simpa [mkBar] using hB
  refine ⟨hA, hB, ?_, ?_⟩
  · norm_num [BacktestEngine.runBacktest, BacktestEngine.runLoop,
      BacktestEngine.runStep, lookaheadStrategyA, hA2,
      BacktestEngine.updatePortfolioValues, BacktestEngine.executeSignals,
      BacktestEngine.executeSignal, BacktestEngine.recordPortfolioState,
      initialState, BacktestConfig.default_, decimalQuantizeDown, assocFind,
      assocSet, mkBar, SignalType.buy_eq_sell_false, SignalType.sell_eq_buy_false]
  · norm_num [BacktestEngine.runBacktest, BacktestEngine.runLoop,
      BacktestEngine.runStep, lookaheadStrategyB, hB2,
      BacktestEngine.updatePortfolioValues, BacktestEngine.executeSignals,
      BacktestEngine.recordPortfolioState, initialState, BacktestConfig.default_,
      mkBar]

/-- Helper simp lemma: a cons list is never the empty list. -/
theorem list_cons_eq_nil_false {α : Type} (a : α) (l : List α) :
    (a :: l = []) = False :=
  eq_false (List.cons_ne_nil a l)

/-- C3: executing a SELL while an open position exists never completes. On
the failing input `sellCrashState` (position of 10 shares, SELL at price
100): cash is credited with the proceeds 99.95·2 − 0.1999 = 199.7001, and
then `position.realized_pnl += realized_pnl` (engine.py:188) raises
`AttributeError` — `BacktestPosition` declares no `realized_pnl` field — so
the position is left unreduced, no Trade is recorded, and the raise aborts
the whole run (final conjunct: a two-bar buy-then-sell backtest returns the
propagated error instead of a result). A SELL with no open position is
still the no-op the claim describes (fourth conjunct). -/
theorem sell_with_position_raises_attribute_error :
    (BacktestEngine.executeSignal (BacktestConfig.default_ 1000) sellCrashState
        { symbol := "AAPL", signal_type := SignalType.SELL, timestamp := 7
          price := 100, confidence := 1 } 7).2
      = some ExecError.attributeErrorRealizedPnl
    ∧ (BacktestEngine.executeSignal (BacktestConfig.default_ 1000) sellCrashState
        { symbol := "AAPL", signal_type := SignalType.SELL, timestamp := 7
          price := 100, confidence := 1 } 7).1.cash = 1199.7001
    ∧ (BacktestEngine.executeSignal (BacktestConfig.default_ 1000) sellCrashState
        { symbol := "AAPL", signal_type := SignalType.SELL, timestamp := 7
          price := 100, confidence := 1 } 7).1.positions = sellCrashState.positions
    ∧ (BacktestEngine.executeSignal (BacktestConfig.default_ 1000) sellCrashState
        { symbol := "AAPL", signal_type := SignalType.SELL, timestamp := 7
          price := 100, confidence := 1 } 7).1.trades = []
    ∧ BacktestEngine.executeSignal (BacktestConfig.default_ 1000)
        (initialState (BacktestConfig.default_ 1000))
        { symbol := "AAPL", signal_type := SignalType.SELL, timestamp := 7
          price := 100, confidence := 1 } 7
      = (initialState (BacktestConfig.default_ 1000), none)
    ∧ (BacktestEngine.runBacktest (BacktestConfig.default_ 100000)
        buyThenSellStrategy [mkBar 0 100, mkBar 1 100]).2
      = Except.error (RunError.execError ExecError.attributeErrorRealizedPnl) := by
  refine ⟨?_, ?_, ?_, ?_, ?_, ?_⟩ <;>
    norm_num [BacktestEngine.runBacktest, BacktestEngine.runLoop,
      BacktestEngine.runStep, buyThenSellStrategy,
      BacktestEngine.updatePortfolioValues, markPosition,
      BacktestEngine.executeSignals, BacktestEngine.executeSignal,
      BacktestEngine.recordPortfolioState, sellCrashState,
      initialState, BacktestConfig.default_, decimalQuantizeDown, assocFind,
      assocSet, mkBar, SignalType.buy_eq_sell_false, SignalType.sell_eq_buy_false,
      list_cons_eq_nil_false]

/-- C1 counterexample: in the one-bar backtest (initial capital 10500, bar
close 100) whose step executes a BUY between the mark-to-market and the
snapshot, the recorded step violates
`cash + Σ quantity × current price = total_value` by the full trade cost
asymmetry (1.0005, i.e. ≈ 9.5·10⁻⁵ of total value — far beyond the 1e-6
relative tolerance): `_record_portfolio_state` snapshots the `total_value`
computed BEFORE the execution together with the cash and positions AFTER
it. -/
theorem conservation_violated_at_buy_step :
    ¬ ∀ snap ∈ (BacktestEngine.runBacktest (BacktestConfig.default_ 10500)
        conservationBuyStrategy [mkBar 0 100]).1.portfolio_history,
      snapshotConserved (1/1000000) snap := by
  intro h
  have hrun : (BacktestEngine.runBacktest (BacktestConfig.default_ 10500)
      conservationBuyStrategy [mkBar 0 100]).1.portfolio_history
      = [{ timestamp := 0, total_value := 10500, cash := 9498.4995
           positions := [("AAPL", { quantity := 10, market_value := 0
                                    unrealized_pnl := 0, current_price := 100.05 })] }] := by
    norm_num [BacktestEngine.runBacktest, BacktestEngine.runLoop,
      BacktestEngine.runStep, conservationBuyStrategy,
      BacktestEngine.updatePortfolioValues, markPosition,
      BacktestEngine.executeSignals, BacktestEngine.executeSignal,
      BacktestEngine.recordPortfolioState, initialState, BacktestConfig.default_,
      decimalQuantizeDown, assocFind, assocSet, mkBar,
      SignalType.buy_eq_sell_false, SignalType.sell_eq_buy_false,
      list_cons_eq_nil_false]
  have hc := h _ (by rw [hrun]; exact List.mem_singleton.mpr rfl)
  norm_num [snapshotConserved, snapshotPositionsValue] at hc
  rw [abs_of_pos (by norm_num : (0:Rat) < 2001/2000)] at hc
  norm_num at hc

/-- Helper: `_execute_signal` ignores HOLD and NO_SIGNAL signals
(engine.py:120-121). -/
theorem executeSignal_ignored (config : BacktestConfig) (s : EngineState)
    (sig : Signal) (ts : Nat)
    (h : sig.signal_type ≠ SignalType.BUY ∧ sig.signal_type ≠ SignalType.SELL) :
    BacktestEngine.executeSignal config s sig ts = (s, none) := by
  simp only [BacktestEngine.executeSignal]
  rw [if_pos h]

/-- Helper: the signal loop leaves the state unchanged when every signal of
the step is HOLD or NO_SIGNAL. -/
theorem executeSignals_ignored (config : BacktestConfig) (s : EngineState)
    (sigs : List Signal) (ts : Nat)
    (h : ∀ sig ∈ sigs,
        sig.signal_type ≠ SignalType.BUY ∧ sig.signal_type ≠ SignalType.SELL) :
    BacktestEngine.executeSignals config s sigs ts = (s, none) := by
  induction sigs with
  | nil => rfl
  | cons a rest ih =>
    have ha := executeSignal_ignored config s a ts (h a (List.mem_cons_self a rest))
    simp only [BacktestEngine.executeSignals, ha]
    exact ih (fun sig hs => h sig (List.mem_cons_of_mem a hs))

/-- C1 amended: at every recorded step at which the strategy emitted no BUY
and no SELL signal, the snapshot appended by the step satisfies the
conservation identity `cash + Σ quantity × current price = total_value`
EXACTLY (mark-to-market recomputes `total_value` as exactly that sum and
nothing changes the state before the snapshot); at a step with an executed
BUY or SELL the snapshotted `total_value` is the pre-execution value, and
the identity can fail by the commission and slippage amounts — beyond the
1e-6 relative tolerance, as `conservation_violated_at_buy_step` shows. -/
theorem conservation_exact_at_signal_free_steps :
    ∀ (config : BacktestConfig) (strategy : List OHLCV → List Signal)
      (s : EngineState) (current_data : List OHLCV) (bar : OHLCV),
    (∀ sig ∈ strategy current_data,
        sig.signal_type ≠ SignalType.BUY ∧ sig.signal_type ≠ SignalType.SELL) →
    (BacktestEngine.runStep config strategy s current_data bar).2 = none
    ∧ ∃ snap,
        (BacktestEngine.runStep config strategy s current_data bar).1.portfolio_history
          = s.portfolio_history ++ [snap]
        ∧ snap.cash + snapshotPositionsValue snap = snap.total_value := by
  intro config strategy s current_data bar h
  have hex := executeSignals_ignored config
    (BacktestEngine.updatePortfolioValues s bar) (strategy current_data)
    bar.timestamp h
  simp only [BacktestEngine.runStep, hex]
  refine ⟨trivial,
    ⟨{ timestamp := bar.timestamp
       total_value := (BacktestEngine.updatePortfolioValues s bar).total_value
       cash := (BacktestEngine.updatePortfolioValues s bar).cash
       positions := (BacktestEngine.updatePortfolioValues s bar).positions.map
         (fun e => (e.1, { quantity := e.2.quantity
                           market_value := e.2.market_value
                           unrealized_pnl := e.2.unrealized_pnl
                           current_price := e.2.current_price })) }, ?_, ?_⟩⟩
  · simp [BacktestEngine.recordPortfolioState, BacktestEngine.updatePortfolioValues]
  · simp only [snapshotPositionsValue, BacktestEngine.updatePortfolioValues,
      List.map_map]
    rfl

/-- Witness for `conservation_exact_at_signal_free_steps`: the signal-free
step of a strategy that never signals, on a one-bar prefix. -/
theorem conservation_exact_at_signal_free_steps_witness :
    (BacktestEngine.runStep (BacktestConfig.default_ 100) (fun _ => [])
        (initialState (BacktestConfig.default_ 100)) [mkBar 0 1] (mkBar 0 1)).2 = none
    ∧ ∃ snap,
        (BacktestEngine.runStep (BacktestConfig.default_ 100) (fun _ => [])
            (initialState (BacktestConfig.default_ 100)) [mkBar 0 1]
            (mkBar 0 1)).1.portfolio_history
          = (initialState (BacktestConfig.default_ 100)).portfolio_history ++ [snap]
        ∧ snap.cash + snapshotPositionsValue snap = snap.total_value :=
  conservation_exact_at_signal_free_steps (BacktestConfig.default_ 100) (fun _ => [])
    (initialState (BacktestConfig.default_ 100)) [mkBar 0 1] (mkBar 0 1) (by simp)

/-- C6 counterexample: an available MACD value of exactly 0 suppresses the
multi-indicator signal. With price 100, SMA 110, RSI 80, MACD 0, signal
line 1, upper band 90, lower band 80 — every value available (non-null) and
every sell condition voting, so the claim predicts SELL with confidence 1 —
the strategy emits nothing, because Python `all` treats the float `0.0` as
missing; replacing the MACD value 0 by −1 (equally a sell vote) yields the
SELL the claim expects. -/
theorem zero_macd_suppresses_signal :
    MultiIndicatorStrategy.vote 100 (some 110) (some 80) (some 0) (some 1)
        (some 90) (some 80) = none
    ∧ MultiIndicatorStrategy.vote 100 (some 110) (some 80) (some (-1)) (some 1)
        (some 90) (some 80) = some (SignalType.SELL, 1) := by
  constructor <;>
    norm_num [MultiIndicatorStrategy.vote, truthy, bne_iff_ne]

/-- C6 amended: for every evaluation step of the multi-indicator voting
strategy whose six extracted values (SMA-20, RSI, MACD, MACD signal, upper
and lower Bollinger bands) are available AND nonzero, the emitted signal is
BUY when the buy-vote fraction is ≥ 0.6, else SELL when the sell-vote
fraction is ≥ 0.6, else nothing, with confidence the winning fraction and
with the claim's weights (trend 0.5, others 1); and the signal is withheld
whenever the Python-truthiness availability test fails — i.e. when some
value is missing OR equals 0, not only when one is unavailable. -/
theorem multi_vote_characterization :
    (∀ (price sma20 rsiV macdV signalV bbU bbL : Rat),
      sma20 ≠ 0 → rsiV ≠ 0 → macdV ≠ 0 → signalV ≠ 0 → bbU ≠ 0 → bbL ≠ 0 →
      MultiIndicatorStrategy.vote price (some sma20) (some rsiV) (some macdV)
          (some signalV) (some bbU) (some bbL)
        = (if 3/5 ≤ specBuyFraction price sma20 rsiV macdV signalV bbU bbL then
            some (SignalType.BUY, specBuyFraction price sma20 rsiV macdV signalV bbU bbL)
          else if 3/5 ≤ specSellFraction price sma20 rsiV macdV signalV bbU bbL then
            some (SignalType.SELL, specSellFraction price sma20 rsiV macdV signalV bbU bbL)
          else none))
    ∧ (∀ (price : Rat) (a b c d e f : Option Rat),
        (truthy a && truthy b && truthy c && truthy d && truthy e && truthy f) = false →
        MultiIndicatorStrategy.vote price a b c d e f = none) := by
  constructor
  · intro price sma20 rsiV macdV signalV bbU bbL h1 h2 h3 h4 h5 h6
    have hcond : (truthy (some sma20) && truthy (some rsiV) && truthy (some macdV)
        && truthy (some signalV) && truthy (some bbU) && truthy (some bbL)) = true := by
      simp [truthy, bne_iff_ne, h1, h2, h3, h4, h5, h6]
    simp only [MultiIndicatorStrategy.vote, hcond, if_true, Option.getD_some,
      specBuyFraction, specSellFraction]
  · intro price a b c d e f h
    simp only [MultiIndicatorStrategy.vote, h]
    simp

/-- Witness for `multi_vote_characterization`, instantiated at price 10,
SMA 5, RSI 20, MACD 2, signal 1, upper band 50, lower band 1 (an all-buy
configuration). -/
theorem multi_vote_characterization_witness :
    MultiIndicatorStrategy.vote 10 (some 5) (some 20) (some 2) (some 1)
        (some 50) (some 1)
      = (if 3/5 ≤ specBuyFraction 10 5 20 2 1 50 1 then
          some (SignalType.BUY, specBuyFraction 10 5 20 2 1 50 1)
        else if 3/5 ≤ specSellFraction 10 5 20 2 1 50 1 then
          some (SignalType.SELL, specSellFraction 10 5 20 2 1 50 1)
        else none) :=
  multi_vote_characterization.1 10 5 20 2 1 50 1 (by norm_num) (by norm_num)
    (by norm_num) (by norm_num) (by norm_num) (by norm_num)

/-- C10: every `IndicatorCalculator` query unconditionally reads
`self.timestamps[-1]`, so on a calculator built from an empty bar series all
five queries raise (`none`), while on any nonempty series they all return a
value; the underlying library functions themselves are total and merely
return empty results on inputs shorter than their minimum window. The
period hypotheses keep the statement inside the domain where the embedding
is faithful to Python (a zero period would raise `ZeroDivisionError`, and
`macd` indexes safely only for `fast ≤ slow`). -/
theorem calculator_queries_require_nonempty :
    ∀ (std : List Rat → Rat) (data : List OHLCV)
      (prices high_prices low_prices : List Rat)
      (p rp fp slp sgp bp kp dp : Nat) (sd : Rat),
    1 ≤ p → 1 ≤ rp → 1 ≤ fp → fp ≤ slp → 1 ≤ sgp → 1 ≤ bp → 1 ≤ kp → 1 ≤ dp →
    ((IndicatorCalculator.ofData []).calculate_sma p = none
      ∧ (IndicatorCalculator.ofData []).calculate_rsi rp = none
      ∧ (IndicatorCalculator.ofData []).calculate_macd fp slp sgp = none
      ∧ (IndicatorCalculator.ofData []).calculate_bollinger_bands std bp sd = none
      ∧ (IndicatorCalculator.ofData []).calculate_stochastic kp dp = none)
    ∧ (data ≠ [] →
        ((IndicatorCalculator.ofData data).calculate_sma p).isSome = true
        ∧ ((IndicatorCalculator.ofData data).calculate_rsi rp).isSome = true
        ∧ ((IndicatorCalculator.ofData data).calculate_macd fp slp sgp).isSome = true
        ∧ ((IndicatorCalculator.ofData data).calculate_bollinger_bands std bp sd).isSome = true
        ∧ ((IndicatorCalculator.ofData data).calculate_stochastic kp dp).isSome = true)
    ∧ (prices.length < p →
        TechnicalIndicators.simple_moving_average prices p = [])
    ∧ (prices.length < rp + 1 →
        TechnicalIndicators.relative_strength_index prices rp = [])
    ∧ (prices.length < slp →
        TechnicalIndicators.macd prices fp slp sgp = { macd := [], signal := [], histogram := [] })
    ∧ (prices.length < bp →
        TechnicalIndicators.bollinger_bands std prices bp sd
          = { upper := [], middle := [], lower := [] })
    ∧ (prices.length < kp →
        TechnicalIndicators.stochastic_oscillator high_prices low_prices prices kp dp
          = { k := [], d := [] }) := by
  intro std data prices high_prices low_prices p rp fp slp sgp bp kp dp sd
  intro hp hrp hfp hfs hsgp hbp hkp hdp
  refine ⟨⟨?_, ?_, ?_, ?_, ?_⟩, ?_, ?_, ?_, ?_, ?_, ?_⟩
  · simp [IndicatorCalculator.calculate_sma, IndicatorCalculator.ofData]
  · simp [IndicatorCalculator.calculate_rsi, IndicatorCalculator.ofData]
  · simp [IndicatorCalculator.calculate_macd, IndicatorCalculator.ofData]
  · simp [IndicatorCalculator.calculate_bollinger_bands, IndicatorCalculator.ofData]
  · simp [IndicatorCalculator.calculate_stochastic, IndicatorCalculator.ofData]
  · intro h
    obtain ⟨ts, hts⟩ := Option.isSome_iff_exists.mp
      (List.getLast?_isSome.mpr (ofData_timestamps_ne_nil data h))
    refine ⟨?_, ?_, ?_, ?_, ?_⟩ <;>
      simp [IndicatorCalculator.calculate_sma, IndicatorCalculator.calculate_rsi,
        IndicatorCalculator.calculate_macd, IndicatorCalculator.calculate_bollinger_bands,
        IndicatorCalculator.calculate_stochastic, hts]
  · intro h
    simp [TechnicalIndicators.simple_moving_average, h]
  · intro h
    simp [TechnicalIndicators.relative_strength_index, h]
  · intro h
    simp [TechnicalIndicators.macd, h]
  · intro h
    simp [TechnicalIndicators.bollinger_bands, h]
  · intro h
    simp [TechnicalIndicators.stochastic_oscillator, h]

/-- Witness for `calculator_queries_require_nonempty`: all periods 1,
nonempty data `[mkBar 0 1]`, empty price lists, zero standard deviation. -/
theorem calculator_queries_require_nonempty_witness :
    ((IndicatorCalculator.ofData []).calculate_sma 1 = none
      ∧ (IndicatorCalculator.ofData []).calculate_rsi 1 = none
      ∧ (IndicatorCalculator.ofData []).calculate_macd 1 1 1 = none
      ∧ (IndicatorCalculator.ofData []).calculate_bollinger_bands (fun _ => 0) 1 0 = none
      ∧ (IndicatorCalculator.ofData []).calculate_stochastic 1 1 = none)
    ∧ ([mkBar 0 1] ≠ [] →
        ((IndicatorCalculator.ofData [mkBar 0 1]).calculate_sma 1).isSome = true
        ∧ ((IndicatorCalculator.ofData [mkBar 0 1]).calculate_rsi 1).isSome = true
        ∧ ((IndicatorCalculator.ofData [mkBar 0 1]).calculate_macd 1 1 1).isSome = true
        ∧ ((IndicatorCalculator.ofData [mkBar 0 1]).calculate_bollinger_bands
            (fun _ => 0) 1 0).isSome = true
        ∧ ((IndicatorCalculator.ofData [mkBar 0 1]).calculate_stochastic 1 1).isSome = true)
    ∧ (([] : List Rat).length < 1 →
        TechnicalIndicators.simple_moving_average [] 1 = [])
    ∧ (([] : List Rat).length < 1 + 1 →
        TechnicalIndicators.relative_strength_index [] 1 = [])
    ∧ (([] : List Rat).length < 1 →
        TechnicalIndicators.macd [] 1 1 1 = { macd := [], signal := [], histogram := [] })
    ∧ (([] : List Rat).length < 1 →
        TechnicalIndicators.bollinger_bands (fun _ => 0) [] 1 0
          = { upper := [], middle := [], lower := [] })
    ∧ (([] : List Rat).length < 1 →
        TechnicalIndicators.stochastic_oscillator [] [] [] 1 1 = { k := [], d := [] }) :=
  calculator_queries_require_nonempty (fun _ => 0) [mkBar 0 1] [] [] []
    1 1 1 1 1 1 1 1 0 (le_refl 1) (le_refl 1) (le_refl 1) (le_refl 1)
    (le_refl 1) (le_refl 1) (le_refl 1) (le_refl 1)

/-- C9 counterexample: an executed SELL does NOT only credit cash. On
`sellDebitState` with a SELL at price 1: execution price 0.9995, commission
0.9995·10000·0.001 = 9.995, clamped quantity 1, proceeds
0.9995 − 9.995 = −8.9955 < 0 — cash strictly decreases. -/
theorem sell_can_debit_cash :
    (BacktestEngine.executeSignal (BacktestConfig.default_ 100000) sellDebitState
        { symbol := "AAPL", signal_type := SignalType.SELL, timestamp := 3
          price := 1, confidence := 1 } 3).1.cash < sellDebitState.cash := by
  norm_num [BacktestEngine.executeSignal, sellDebitState, BacktestConfig.default_,
    decimalQuantizeDown, assocFind, assocSet,
    SignalType.buy_eq_sell_false, SignalType.sell_eq_buy_false]

/-- Helper: the truncating quantize is bounded by its argument on
nonnegative input. -/
theorem decimalQuantizeDown_le (x : Rat) (hx : 0 ≤ x) :
    ((decimalQuantizeDown x : Int) : Rat) ≤ x := by
  rw [decimalQuantizeDown, if_neg (not_lt.mpr hx)]
  exact Int.floor_le x

/-- Helper: looking the only key of a singleton dict up finds its value. -/
theorem assocFind_singleton_self {α : Type} (k : String) (v : α) :
    assocFind [(k, v)] k = some v := by
  simp [assocFind]

/-- Helper: lookup in the empty dict. -/
theorem assocFind_nil {α : Type} (k : String) :
    assocFind ([] : List (String × α)) k = none := rfl

/-- Helper: the sell path cannot drive cash negative when the position is
marked at the signal price: with execution price `p(1−sl)`, clamped quantity
`min q h` and commission `p(1−sl)·q·c`, the credited proceeds are bounded
below by `−cash` as long as `q·p ≤ (cash + h·p)·m` (the floor bound of the
10%-sizing) and `c·m ≤ 1`. -/
theorem sell_cash_bound (cash h p sl c m q : Rat)
    (hcash : 0 ≤ cash) (hh : 0 ≤ h) (hp : 0 < p) (hsl0 : 0 ≤ sl) (hsl1 : sl ≤ 1)
    (hc0 : 0 ≤ c) (hc1 : c ≤ 1) (hcm : c * m ≤ 1)
    (hqp : q * p ≤ (cash + h * p) * m) (hq : 0 ≤ q) :
    0 ≤ cash + (p * (1 - sl) * min q h - p * (1 - sl) * q * c) := by
  rcases le_total q h with hmin | hmin
  · rw [min_eq_left hmin]
    nlinarith [mul_nonneg (mul_nonneg (mul_nonneg hp.le
      (by linarith : (0:Rat) ≤ 1 - sl)) hq) (by linarith : (0:Rat) ≤ 1 - c)]
  · rw [min_eq_right hmin]
    nlinarith [mul_le_mul_of_nonneg_left hqp
        (mul_nonneg (by linarith : (0:Rat) ≤ 1 - sl) hc0),
      mul_nonneg (mul_nonneg (add_nonneg hcash (mul_nonneg hh hp.le))
        (by linarith : (0:Rat) ≤ 1 - sl)) (by linarith : (0:Rat) ≤ 1 - c * m),
      mul_nonneg hcash hsl0,
      mul_nonneg (mul_nonneg hh hp.le) hsl0]

/-- C9 amended: `_execute_signal` — the only operation that mutates cash —
preserves `cash ≥ 0` in every state of the shape the single-symbol backtest
loop produces (positions empty, or exactly one entry for the signal's
symbol, with `total_value` the mark-to-market value at the signal's price):
a BUY whose total cost exceeds available cash is rejected with cash
unchanged, an accepted BUY debits at most the available cash, and a SELL
credits proceeds that may be NEGATIVE (commission is charged on the sized,
unclamped quantity — see `sell_can_debit_cash`) but never below −cash. The
configuration hypotheses hold for the defaults (0.1% commission, 0.05%
slippage, 10% sizing) and any sane variation. -/
theorem cash_nonneg_preserved :
    ∀ (config : BacktestConfig) (s : EngineState) (sig : Signal) (ts : Nat),
    0 ≤ config.commission_per_trade → config.commission_per_trade ≤ 1 →
    0 ≤ config.slippage → config.slippage ≤ 1 →
    0 ≤ config.max_position_size →
    config.commission_per_trade * config.max_position_size ≤ 1 →
    0 ≤ s.cash → 0 < sig.price →
    (s.positions = [] ∧ s.total_value = s.cash
      ∨ ∃ pos, s.positions = [(sig.symbol, pos)] ∧ 0 ≤ pos.quantity
          ∧ s.total_value = s.cash + pos.quantity * sig.price) →
    0 ≤ (BacktestEngine.executeSignal config s sig ts).1.cash := by
  intro config s sig ts hc0 hc1 hsl0 hsl1 hm0 hcm hcash hp hshape
  have hT : 0 ≤ s.total_value := by
    rcases hshape with ⟨-, htv⟩ | ⟨pos, -, hq0, htv⟩
    · rw [htv]; exact hcash
    · rw [htv]; exact add_nonneg hcash (mul_nonneg hq0 hp.le)
  have hx : 0 ≤ s.total_value * config.max_position_size / sig.price :=
    div_nonneg (mul_nonneg hT hm0) hp.le
  have hqle : ((decimalQuantizeDown
      (s.total_value * config.max_position_size / sig.price) : Int) : Rat)
      ≤ s.total_value * config.max_position_size / sig.price :=
    decimalQuantizeDown_le _ hx
  have hqp : ((decimalQuantizeDown
      (s.total_value * config.max_position_size / sig.price) : Int) : Rat) * sig.price
      ≤ s.total_value * config.max_position_size :=
    (le_div_iff₀ hp).mp hqle
  cases hty : sig.signal_type with
  | HOLD =>
    simp only [BacktestEngine.executeSignal, hty]
    rw [if_pos ⟨fun hh => SignalType.noConfusion hh, fun hh => SignalType.noConfusion hh⟩]
    exact hcash
  | NO_SIGNAL =>
    simp only [BacktestEngine.executeSignal, hty]
    rw [if_pos ⟨fun hh => SignalType.noConfusion hh, fun hh => SignalType.noConfusion hh⟩]
    exact hcash
  | BUY =>
    simp only [BacktestEngine.executeSignal, hty, SignalType.buy_eq_sell_false,
      if_false, ne_eq, not_true_eq_false, false_and, if_true]
    split_ifs with hq hcst
    · exact hcash
    · exact hcash
    · dsimp only
      push_neg at hcst
      linarith
  | SELL =>
    simp only [BacktestEngine.executeSignal, hty, ne_eq, not_true_eq_false,
      and_false, if_false, SignalType.sell_eq_buy_false]
    rcases hshape with ⟨hpos, htv⟩ | ⟨pos, hpos, hq0, htv⟩
    · rw [hpos]
      simp only [assocFind_nil]
      split_ifs with hq
      · exact hcash
      · exact hcash
    · rw [hpos]
      simp only [assocFind_singleton_self]
      split_ifs with hq
      · exact hcash
      · dsimp only
        push_neg at hq
        have key := sell_cash_bound s.cash pos.quantity sig.price config.slippage
          config.commission_per_trade config.max_position_size
          ((decimalQuantizeDown
            (s.total_value * config.max_position_size / sig.price) : Int) : Rat)
          hcash hq0 hp hsl0 hsl1 hc0 hc1 hcm (htv ▸ hqp) hq.le
        linarith

/-- Witness for `cash_nonneg_preserved`: default configuration, cash 100
and one share of AAPL marked at the SELL signal's price 10. -/
theorem cash_nonneg_preserved_witness :
    0 ≤ (BacktestEngine.executeSignal (BacktestConfig.default_ 100)
      { cash := 100
        total_value := 110
        positions := [("AAPL",
          { symbol := "AAPL", quantity := 1, entry_price := 8, entry_date := 0
            current_price := 10, market_value := 10, unrealized_pnl := 2 })]
        trades := []
        portfolio_history := [] }
      { symbol := "AAPL", signal_type := SignalType.SELL, timestamp := 4
        price := 10, confidence := 1 } 4).1.cash :=
  cash_nonneg_preserved (BacktestConfig.default_ 100) _ _ 4
    (by norm_num [BacktestConfig.default_]) (by norm_num [BacktestConfig.default_])
    (by norm_num [BacktestConfig.default_]) (by norm_num [BacktestConfig.default_])
    (by norm_num [BacktestConfig.default_]) (by norm_num [BacktestConfig.default_])
    (by norm_num) (by norm_num)
    (Or.inr ⟨_, rfl, by norm_num, by norm_num⟩)
